import Mathlib

/-!
# Verification of the ASIO C-linkage shim (`asio-sys/asio-link`)

A shallow embedding of `helpers.cpp` / `helpers.hpp`: a set of `extern "C"`
functions, each a direct forward into the vendor ASIO SDK.  The vendor SDK
itself is outside the repository, so it is modelled abstractly as a record of
entry points over an opaque SDK state, and caller memory (the `double *rate`
output slot, the driver-name buffers) is modelled as explicit maps from
addresses to values.  Each shim function additionally reports the list of SDK
entry points it invoked, so that "calls the SDK exactly once with these
arguments" is a provable statement.
-/

/-- Addresses of caller-owned memory (pointers crossing the boundary). -/
abbrev Addr := Nat

/-- Caller memory holding `double` slots, one per address (`D` is the
floating-point payload type, treated opaquely by the shim). -/
abbrev Heap (D : Type) := Addr → D

/-- Caller memory holding driver-name text buffers, one per index of the
`char **names` array. -/
abbrev NameBufs := Addr → String

/-- One invocation of a vendor SDK entry point, recording the arguments the
shim forwarded to it. -/
inductive SdkCall (D : Type) where
  | getSampleRate (rate : Addr)
  | setSampleRate (rate : D)
  | canSampleRate (rate : D)
  | loadDriver (name : Addr)
  | removeCurrentDriver
  | getDriverNames (maxDrivers : Nat)
  deriving DecidableEq, Repr

/-- Abstract model of the vendor ASIO SDK as seen through the entry points the
shim forwards to.  `S` is the SDK's process-wide state; `D` the `double` type.

* `ASIOGetSampleRate` yields the `ASIOError` result code, optionally a rate
  value written through the forwarded pointer (`none` models a failure that
  writes nothing), and the next SDK state.
* `ASIOSetSampleRate` / `ASIOCanSampleRate` yield a result code and next state.
* `loadAsioDriver` receives the forwarded name-buffer pointer and yields the
  SDK's boolean success flag and next state.
* `removeCurrentDriver` is the driver-manager singleton's unload method.
* `availableDrivers` is the list of driver names a freshly constructed
  `AsioDrivers` instance can enumerate from the process-wide registry. -/
structure SdkModel (D : Type) (S : Type) where
  ASIOGetSampleRate : S → Int × Option D × S
  ASIOSetSampleRate : D → S → Int × S
  ASIOCanSampleRate : D → S → Int × S
  loadAsioDriver : Addr → S → Bool × S
  removeCurrentDriver : S → S
  availableDrivers : S → List String

/-- Semantics of the SDK call `ASIOGetSampleRate(p)` on caller memory: when the
SDK produces a value it is written through the forwarded pointer `p`, the only
caller memory it receives; when it produces none, memory is untouched. -/
def writeSlot {D : Type} (h : Heap D) (p : Addr) : Option D → Heap D
  | some v => fun a => if a = p then v else h a
  | none => h

/-- `extern "C" ASIOError get_sample_rate(double *rate)`: forwards the
(reinterpreted) pointer to `ASIOGetSampleRate` and returns its result code. -/
def get_sample_rate {D S : Type} (sdk : SdkModel D S) (s : S) (h : Heap D)
    (rate : Addr) : Int × Heap D × S × List (SdkCall D) :=
  let r := sdk.ASIOGetSampleRate s
  (r.1, writeSlot h rate r.2.1, r.2.2, [SdkCall.getSampleRate rate])

/-- `extern "C" ASIOError set_sample_rate(double rate)`: forwards the rate by
value to `ASIOSetSampleRate` and returns its result code. -/
def set_sample_rate {D S : Type} (sdk : SdkModel D S) (rate : D) (s : S) :
    Int × S × List (SdkCall D) :=
  let r := sdk.ASIOSetSampleRate rate s
  (r.1, r.2, [SdkCall.setSampleRate rate])

/-- `extern "C" ASIOError can_sample_rate(double rate)`: forwards the rate by
value to `ASIOCanSampleRate` and returns its result code. -/
def can_sample_rate {D S : Type} (sdk : SdkModel D S) (rate : D) (s : S) :
    Int × S × List (SdkCall D) :=
  let r := sdk.ASIOCanSampleRate rate s
  (r.1, r.2, [SdkCall.canSampleRate rate])

/-- `extern "C" bool load_asio_driver(char *name)`: forwards the name-buffer
pointer to the SDK's free function `loadAsioDriver` and returns its flag. -/
def load_asio_driver {D S : Type} (sdk : SdkModel D S) (name : Addr) (s : S) :
    Bool × S × List (SdkCall D) :=
  let r := sdk.loadAsioDriver name s
  (r.1, r.2, [SdkCall.loadDriver name])

/-- `extern "C" void remove_current_driver()`: dereferences the `extern`
driver-manager singleton pointer unconditionally (`asioDrivers->
removeCurrentDriver();`).  The singleton pointer is modelled as
`Option S`: `none` is a null pointer, and dereferencing it is undefined
behaviour, modelled as the `none` outcome. -/
def remove_current_driver {D S : Type} (sdk : SdkModel D S)
    (asioDrivers : Option S) (h : Heap D) :
    Option (Unit × Heap D × S × List (SdkCall D)) :=
  match asioDrivers with
  | none => none
  | some s => some ((), h, sdk.removeCurrentDriver s, [SdkCall.removeCurrentDriver])

/-- Modelled from the spec: the vendor SDK's `AsioDrivers::getDriverNames`
method (defined outside this repository, in the SDK's `asiodrivers.cpp`)
enumerates the available driver names into the caller's buffers, writing at
most `maxDrivers` of them and returning the count written; buffers past the
count are untouched. -/
def AsioDrivers.getDriverNames (avail : List String) (names : NameBufs)
    (maxDrivers : Nat) : Nat × NameBufs :=
  let count := min avail.length maxDrivers
  (count, fun i => if i < count then avail.getD i (names i) else names i)

/-- `extern "C" long get_driver_names(char **names, long maxDrivers)`:
constructs a short-lived local `AsioDrivers ad;` (which enumerates the SDK's
process-wide registry) and returns `ad.getDriverNames(names, maxDrivers)`. -/
def get_driver_names {D S : Type} (sdk : SdkModel D S) (s : S)
    (names : NameBufs) (maxDrivers : Nat) :
    Nat × NameBufs × List (SdkCall D) :=
  let r := AsioDrivers.getDriverNames (sdk.availableDrivers s) names maxDrivers
  (r.1, r.2, [SdkCall.getDriverNames maxDrivers])

/-- The shim's own mutable state: `helpers.cpp` defines no file-scope objects
of its own (`asioDrivers` is an `extern` declaration of SDK-owned state and
`loadAsioDriver` a function declaration), so the state space is trivial. -/
def ShimState : Type := Unit

/-- Modelled from the spec: caller-owned storage of a vendor driver-manager
(`AsioDrivers`) instance, tracking separately how many times the class's
destructor logic has run and whether the underlying storage was deallocated.
`destruct_AsioDrivers` is declared in one variant of `helpers.hpp` that is not
part of this snapshot's sources. -/
structure DriverMgrStorage where
  destructorRuns : Nat
  freed : Bool
  deriving DecidableEq, Repr

/-- Modelled from the spec: `extern "C" void destruct_AsioDrivers(AsioDrivers
*drivers)` invokes the instance's destructor in place (`drivers->~AsioDrivers()`)
without freeing the underlying storage.  The caller's storage cells are a map
from addresses to `DriverMgrStorage`; only the pointed-to cell is touched. -/
def destruct_AsioDrivers (mem : Addr → DriverMgrStorage) (p : Addr) :
    Addr → DriverMgrStorage :=
  fun a =>
    if a = p then
      { destructorRuns := (mem p).destructorRuns + 1, freed := (mem p).freed }
    else mem a

/-- A fake SDK whose state is the last stored sample rate (`none` before any
set); `ASIOSetSampleRate` stores the rate and `ASIOGetSampleRate` writes the
stored rate back through the pointer (spec §8, property 1). -/
def storingSdk (D : Type) : SdkModel D (Option D) where
  ASIOGetSampleRate := fun s => (0, s, s)
  ASIOSetSampleRate := fun r _ => (0, some r)
  ASIOCanSampleRate := fun _ s => (0, s)
  loadAsioDriver := fun _ s => (true, s)
  removeCurrentDriver := fun s => s
  availableDrivers := fun _ => []

/-- A fake SDK whose state is the registry's driver-name list; its rate query
fails without writing through the pointer, and its loader refuses. -/
def registrySdk : SdkModel Int (List String) where
  ASIOGetSampleRate := fun s => (-1, none, s)
  ASIOSetSampleRate := fun _ s => (0, s)
  ASIOCanSampleRate := fun r s => (if r = 44100 then 0 else -995, s)
  loadAsioDriver := fun _ s => (false, s)
  removeCurrentDriver := fun s => s
  availableDrivers := fun s => s

/-- C1: `destruct_AsioDrivers`, given a pointer to a vendor driver-manager
instance, runs the instance's destructor logic exactly once in place, never
deallocates the underlying storage, and touches no other storage cell. -/
theorem destruct_AsioDrivers_destruction_only
    (mem : Addr → DriverMgrStorage) (p : Addr) :
    (destruct_AsioDrivers mem p p).destructorRuns = (mem p).destructorRuns + 1 ∧
    (destruct_AsioDrivers mem p p).freed = (mem p).freed ∧
    (∀ a, a ≠ p → destruct_AsioDrivers mem p a = mem a) := by
  refine ⟨by simp [destruct_AsioDrivers], by simp [destruct_AsioDrivers], ?_⟩
  intro a ha
  simp [destruct_AsioDrivers, ha]

/-- Witness for C1 at a concrete storage map and pointer. -/
theorem destruct_AsioDrivers_destruction_only_witness :
    (destruct_AsioDrivers (fun _ => ⟨0, false⟩) 0 0).destructorRuns = 1 ∧
    (destruct_AsioDrivers (fun _ => ⟨0, false⟩) 0 0).freed = false ∧
    destruct_AsioDrivers (fun _ => ⟨0, false⟩) 0 1 = ⟨0, false⟩ :=
  ⟨(destruct_AsioDrivers_destruction_only (fun _ => ⟨0, false⟩) 0).1,
   (destruct_AsioDrivers_destruction_only (fun _ => ⟨0, false⟩) 0).2.1,
   (destruct_AsioDrivers_destruction_only (fun _ => ⟨0, false⟩) 0).2.2 1 (by decide)⟩

/-- C2: against an SDK that stores the last set rate, `set_sample_rate r`
followed by `get_sample_rate` writes exactly `r` into the caller's output
slot, for every rate `r`, initial SDK state, heap and slot address. -/
theorem set_then_get_sample_rate_round_trip {D : Type} (r : D) (s : Option D)
    (h : Heap D) (p : Addr) :
    (get_sample_rate (storingSdk D)
        (set_sample_rate (storingSdk D) r s).2.1 h p).2.1 p = r := by
  simp [get_sample_rate, set_sample_rate, storingSdk, writeSlot]

/-- C3: every shim function returns exactly the result code, boolean flag or
count produced by the corresponding SDK entry point, unchanged. -/
theorem shim_result_passthrough {D S : Type} (sdk : SdkModel D S) (s : S)
    (h : Heap D) (p q : Addr) (r : D) (names : NameBufs) (N : Nat) :
    (get_sample_rate sdk s h p).1 = (sdk.ASIOGetSampleRate s).1 ∧
    (set_sample_rate sdk r s).1 = (sdk.ASIOSetSampleRate r s).1 ∧
    (can_sample_rate sdk r s).1 = (sdk.ASIOCanSampleRate r s).1 ∧
    (load_asio_driver sdk q s).1 = (sdk.loadAsioDriver q s).1 ∧
    (get_driver_names sdk s names N).1 =
      (AsioDrivers.getDriverNames (sdk.availableDrivers s) names N).1 :=
  ⟨rfl, rfl, rfl, rfl, rfl⟩

/-- C4: `get_sample_rate` returns the SDK's result code as-is, leaves every
heap slot other than the forwarded output slot unchanged, and the SDK state
afterwards is exactly what the SDK's rate query produced. -/
theorem get_sample_rate_frame {D S : Type} (sdk : SdkModel D S) (s : S)
    (h : Heap D) (p : Addr) :
    (get_sample_rate sdk s h p).1 = (sdk.ASIOGetSampleRate s).1 ∧
    (∀ a, a ≠ p → (get_sample_rate sdk s h p).2.1 a = h a) ∧
    (get_sample_rate sdk s h p).2.2.1 = (sdk.ASIOGetSampleRate s).2.2 := by
  refine ⟨rfl, ?_, rfl⟩
  intro a ha
  cases hw : (sdk.ASIOGetSampleRate s).2.1 with
  | none => simp [get_sample_rate, writeSlot, hw]
  | some v => simp [get_sample_rate, writeSlot, hw, ha]

/-- Witness for C4: with the storing SDK, a slot other than the output slot is
unchanged and the result code is the SDK's. -/
theorem get_sample_rate_frame_witness :
    (get_sample_rate (storingSdk Int) (some 5) (fun _ => (9 : Int)) 0).1 = 0 ∧
    (get_sample_rate (storingSdk Int) (some 5) (fun _ => (9 : Int)) 0).2.1 1 = 9 :=
  ⟨(get_sample_rate_frame (storingSdk Int) (some 5) (fun _ => (9 : Int)) 0).1,
   (get_sample_rate_frame (storingSdk Int) (some 5) (fun _ => (9 : Int)) 0).2.1
     1 (by decide)⟩

/-- C5: `load_asio_driver` forwards the exact name-buffer pointer to the SDK
loader (the recorded call names that very pointer) and returns the loader's
boolean result and state unchanged, whatever that result is. -/
theorem load_asio_driver_forwards_exact_name {D S : Type} (sdk : SdkModel D S)
    (name : Addr) (s : S) :
    (load_asio_driver sdk name s).1 = (sdk.loadAsioDriver name s).1 ∧
    (load_asio_driver sdk name s).2.1 = (sdk.loadAsioDriver name s).2 ∧
    (load_asio_driver sdk name s).2.2 = [SdkCall.loadDriver name] :=
  ⟨rfl, rfl, rfl⟩

/-- Helper: `List.getD` at an in-bounds index does not depend on the default. -/
theorem getD_eq_of_lt {α : Type} (l : List α) (i : Nat) (d e : α)
    (h : i < l.length) : l.getD i d = l.getD i e := by
  simp [List.getD_eq_getElem?_getD, List.getElem?_eq_getElem h]

/-- C6: `get_driver_names` with capacity `N` returns a count at most `N`, the
first `count` caller buffers hold exactly the enumerator's first `count`
driver names, and — the local `AsioDrivers` instance being scoped to the call
— an immediately repeated call against the same SDK state returns the same
count and leaves the buffers as they are. -/
theorem get_driver_names_bounded_and_stateless {D S : Type}
    (sdk : SdkModel D S) (s : S) (names : NameBufs) (N : Nat) :
    (get_driver_names sdk s names N).1 ≤ N ∧
    (∀ i, i < (get_driver_names sdk s names N).1 →
      (get_driver_names sdk s names N).2.1 i = (sdk.availableDrivers s).getD i "") ∧
    (get_driver_names sdk s (get_driver_names sdk s names N).2.1 N).1 =
      (get_driver_names sdk s names N).1 ∧
    (∀ i, (get_driver_names sdk s (get_driver_names sdk s names N).2.1 N).2.1 i =
      (get_driver_names sdk s names N).2.1 i) := by
  refine ⟨min_le_right _ _, ?_, rfl, ?_⟩
  · intro i hi
    have hi' : i < min (sdk.availableDrivers s).length N := hi
    have hlen : i < (sdk.availableDrivers s).length :=
      lt_of_lt_of_le hi' (min_le_left _ _)
    show (if i < min (sdk.availableDrivers s).length N then
        (sdk.availableDrivers s).getD i (names i) else names i) =
      (sdk.availableDrivers s).getD i ""
    rw [if_pos hi']
    exact getD_eq_of_lt _ _ _ _ hlen
  · intro i
    by_cases hi : i < min (sdk.availableDrivers s).length N
    · have hlen : i < (sdk.availableDrivers s).length :=
        lt_of_lt_of_le hi (min_le_left _ _)
      show (if i < min (sdk.availableDrivers s).length N then
          (sdk.availableDrivers s).getD i
            ((get_driver_names sdk s names N).2.1 i)
          else (get_driver_names sdk s names N).2.1 i) = _
      rw [if_pos hi]
      show _ = (if i < min (sdk.availableDrivers s).length N then
          (sdk.availableDrivers s).getD i (names i) else names i)
      rw [if_pos hi]
      exact getD_eq_of_lt _ _ _ _ hlen
    · show (if i < min (sdk.availableDrivers s).length N then
          (sdk.availableDrivers s).getD i
            ((get_driver_names sdk s names N).2.1 i)
          else (get_driver_names sdk s names N).2.1 i) = _
      rw [if_neg hi]

/-- Witness for C6: two available drivers, capacity one: count is at most one
and the first buffer holds the first driver name. -/
theorem get_driver_names_bounded_and_stateless_witness :
    (get_driver_names registrySdk ["a", "b"] (fun _ => "") 1).1 ≤ 1 ∧
    (get_driver_names registrySdk ["a", "b"] (fun _ => "") 1).2.1 0 = "a" :=
  ⟨(get_driver_names_bounded_and_stateless registrySdk ["a", "b"]
      (fun _ => "") 1).1,
   (get_driver_names_bounded_and_stateless registrySdk ["a", "b"]
      (fun _ => "") 1).2.1 0 (by decide)⟩

/-- C7: `remove_current_driver` on a non-null singleton applies the
singleton's unload method exactly once (the one recorded call), returns unit,
and leaves all caller memory unchanged. -/
theorem remove_current_driver_unloads_once {D S : Type} (sdk : SdkModel D S)
    (s : S) (h : Heap D) :
    remove_current_driver sdk (some s) h =
      some ((), h, sdk.removeCurrentDriver s, [SdkCall.removeCurrentDriver]) :=
  rfl

/-- C8: the shim's own state space is trivial (`helpers.cpp` defines no
file-scope objects), and every shim function, run twice with equal arguments
against equal SDK states, produces equal results. -/
theorem shim_stateless_and_deterministic {D S : Type} (sdk : SdkModel D S) :
    (∀ a b : ShimState, a = b) ∧
    (∀ (s1 s2 : S) (h1 h2 : Heap D) (p1 p2 : Addr), s1 = s2 → h1 = h2 →
        p1 = p2 → get_sample_rate sdk s1 h1 p1 = get_sample_rate sdk s2 h2 p2) ∧
    (∀ (r1 r2 : D) (s1 s2 : S), r1 = r2 → s1 = s2 →
        set_sample_rate sdk r1 s1 = set_sample_rate sdk r2 s2) ∧
    (∀ (r1 r2 : D) (s1 s2 : S), r1 = r2 → s1 = s2 →
        can_sample_rate sdk r1 s1 = can_sample_rate sdk r2 s2) ∧
    (∀ (n1 n2 : Addr) (s1 s2 : S), n1 = n2 → s1 = s2 →
        load_asio_driver sdk n1 s1 = load_asio_driver sdk n2 s2) ∧
    (∀ (s1 s2 : S) (b1 b2 : NameBufs) (N1 N2 : Nat), s1 = s2 → b1 = b2 →
        N1 = N2 → get_driver_names sdk s1 b1 N1 = get_driver_names sdk s2 b2 N2) ∧
    (∀ (d1 d2 : Option S) (h1 h2 : Heap D), d1 = d2 → h1 = h2 →
        remove_current_driver sdk d1 h1 = remove_current_driver sdk d2 h2) := by
  refine ⟨fun a b => by cases a; cases b; rfl, ?_, ?_, ?_, ?_, ?_, ?_⟩ <;>
    · intros
      subst_vars
      rfl

/-- Witness for C8: two identical runs of `get_sample_rate` against the
storing SDK coincide. -/
theorem shim_stateless_and_deterministic_witness :
    get_sample_rate (storingSdk Int) (some 1) (fun _ => (0 : Int)) 2 =
      get_sample_rate (storingSdk Int) (some 1) (fun _ => (0 : Int)) 2 :=
  (shim_stateless_and_deterministic (storingSdk Int)).2.1 (some 1) (some 1)
    (fun _ => (0 : Int)) (fun _ => (0 : Int)) 2 2 rfl rfl rfl

/-- C9: `remove_current_driver` dereferences the singleton pointer with no
null check: on every non-null pointer the call is well-defined (never the
undefined-behaviour outcome), and on a null pointer the undefined behaviour
occurs undetected. -/
theorem remove_current_driver_null_unchecked {D S : Type} (sdk : SdkModel D S)
    (h : Heap D) :
    (∀ s : S, (remove_current_driver sdk (some s) h).isSome = true) ∧
    remove_current_driver sdk (none : Option S) h = none :=
  ⟨fun _ => rfl, rfl⟩

/-- C10: when the SDK's rate query fails without writing through the
forwarded pointer, `get_sample_rate` leaves the caller's heap — in particular
the output slot — exactly as it was: the shim itself never writes the slot. -/
theorem get_sample_rate_silent_failure_preserves_slot {D S : Type}
    (sdk : SdkModel D S) (s : S) (h : Heap D) (p : Addr)
    (hfail : (sdk.ASIOGetSampleRate s).2.1 = none) :
    (get_sample_rate sdk s h p).2.1 = h ∧
    (get_sample_rate sdk s h p).2.1 p = h p := by
  have hh : (get_sample_rate sdk s h p).2.1 = h := by
    simp [get_sample_rate, writeSlot, hfail]
  exact ⟨hh, by rw [hh]⟩

/-- Witness for C10: against a failing rate query, a slot primed with 7 still
holds 7 after the call. -/
theorem get_sample_rate_silent_failure_preserves_slot_witness :
    (get_sample_rate registrySdk [] (fun _ => (7 : Int)) 0).2.1 0 = 7 :=
  (get_sample_rate_silent_failure_preserves_slot registrySdk []
      (fun _ => (7 : Int)) 0 rfl).2
